import Mathlib

/-!
Shallow embedding of `dictate.py` (voice-dictation daemon): the hotkey state
machine (`on_press`/`on_release`), the recording session controller
(`start_recording`/`stop_recording`/`transcribe_and_type`), the undo stack
(`undo_last_transcription`), the audio callback and the device-fault recovery
loop of `run_dictation`.

Modelling conventions:
* Wall-clock timestamps (`time.time()`) are modelled as `Int` milliseconds, so
  the two 0.3-second thresholds of the source become the constant 300.
* Python strings are modelled as `List Char`; `str.strip()` becomes `pystrip`
  and `len` becomes `List.length` (both count code points, as Python does).
* Audio chunks are opaque `Nat` identifiers; only their identity and order
  matter to the control logic.
* The observable actions of a run are collected in a trace of `Eff` values:
  each `xdotool key BackSpace` is one `Eff.backspace`, each tray-icon update is
  `Eff.status`, the Groq call attempt is `Eff.transcribe`, the `xdotool type`
  call is `Eff.typeText`, and deleting the temporary WAV file is
  `Eff.releaseTemp`.  The intent markers `Eff.beginRec`, `Eff.endRec` and
  `Eff.undo` instrument the call sites of `start_recording`, `stop_recording`
  and `undo_last_transcription`: they record that the corresponding intent of
  the specification (BeginRecording / EndRecording / Undo) was emitted.
* `threading.Timer` objects are given fresh numeric identifiers.  The set of
  scheduled, not-yet-fired, not-cancelled timers is the list `live_timers`;
  the global variable `backtick_timer` of the source is the (possibly stale)
  identifier it currently references.  `Timer.cancel()` on a timer that has
  already fired is a no-op, which `List.erase` on an absent identifier models.
* The external collaborators that can fail are summarised in `Env`: the
  outcome of the Groq transcription call and whether the `xdotool type`
  subprocess succeeds.
-/

namespace Dictate

/-- Tray status values (`ICON_IDLE`, `ICON_RECORDING`, `ICON_TRANSCRIBING`,
`ICON_ERROR` of the source). -/
inductive Status
  | idle
  | recording
  | transcribing
  | error
deriving DecidableEq

/-- Observable actions of a run (see the module comment). -/
inductive Eff
  | beginRec
  | endRec
  | undo
  | backspace
  | status (st : Status)
  | transcribe
  | typeText (text : List Char)
  | releaseTemp
deriving DecidableEq

/-- The keys the handlers distinguish: `keyboard.Key.pause` (`HOTKEY`), the
backtick character key, and any other key. -/
inductive Key
  | hotkey
  | backtick
  | other
deriving DecidableEq

/-- Outcome of the Groq transcription call: a returned text or a raised
exception. -/
inductive TranscriptionResult
  | ok (raw : List Char)
  | exn
deriving DecidableEq

/-- Behaviour of the external collaborators during one run. -/
structure Env where
  transcription : TranscriptionResult
  injectorOk : Bool
deriving DecidableEq

/-- The mutable module-level state of `dictate.py`. -/
structure DState where
  recording : Bool
  typing_transcription : Bool
  audio_queue : List Nat
  audio_data : List Nat
  backtick_press_time : Option Int
  backtick_timer : Option Nat
  live_timers : List Nat
  next_timer_id : Nat
  last_backtick_tap_time : Option Int
  transcription_stack : List (List Char)
  device_error : Bool
deriving DecidableEq

/-- The state right after module initialisation. -/
def initState : DState :=
  { recording := false
    typing_transcription := false
    audio_queue := []
    audio_data := []
    backtick_press_time := none
    backtick_timer := none
    live_timers := []
    next_timer_id := 0
    last_backtick_tap_time := none
    transcription_stack := []
    device_error := false }

/-- Constant `BACKTICK_HOLD_THRESHOLD` (0.3 seconds in the source), in milliseconds. -/
def BACKTICK_HOLD_THRESHOLD : Int := 300

/-- Constant `DOUBLE_TAP_THRESHOLD` (0.3 seconds in the source), in milliseconds. -/
def DOUBLE_TAP_THRESHOLD : Int := 300

/-- Python `str.strip()` semantics: remove leading and trailing whitespace. -/
def pystrip (s : List Char) : List Char :=
  ((s.dropWhile Char.isWhitespace).reverse.dropWhile Char.isWhitespace).reverse

/-- Function `start_recording`: clear `audio_data`, set `recording = True`, show the
recording icon. -/
def start_recording (s : DState) : DState × List Eff :=
  ({ s with audio_data := [], recording := true }, [Eff.status Status.recording])

/-- Function `transcribe_and_type`: write the WAV file, call the Groq client; on a
non-empty stripped text append one trailing space, push it on
`transcription_stack`, set the `typing_transcription` gate and run
`xdotool type`; any exception is swallowed; the `finally` block clears the
gate, deletes the temporary file and shows the idle icon. -/
def transcribe_and_type (env : Env) (audio : List Nat) (s : DState) :
    DState × List Eff :=
  match env.transcription with
  | TranscriptionResult.exn =>
      ({ s with typing_transcription := false },
       [Eff.transcribe, Eff.releaseTemp, Eff.status Status.idle])
  | TranscriptionResult.ok raw =>
      let text := pystrip raw
      if text = [] then
        ({ s with typing_transcription := false },
         [Eff.transcribe, Eff.releaseTemp, Eff.status Status.idle])
      else
        let text := text ++ [' ']
        let s :=
          { s with transcription_stack := s.transcription_stack ++ [text] }
        if env.injectorOk then
          ({ s with typing_transcription := false },
           [Eff.transcribe, Eff.typeText text, Eff.releaseTemp,
            Eff.status Status.idle])
        else
          ({ s with typing_transcription := false },
           [Eff.transcribe, Eff.releaseTemp, Eff.status Status.idle])

/-- Function `stop_recording`: set `recording = False`, drain `audio_queue` into
`audio_data`; if nothing was captured show the idle icon and return, otherwise
show the transcribing icon and run the transcription pipeline on the
concatenated audio. -/
def stop_recording (env : Env) (s : DState) : DState × List Eff :=
  let s1 : DState :=
    { s with recording := false
             audio_data := s.audio_data ++ s.audio_queue
             audio_queue := [] }
  if s1.audio_data = [] then
    (s1, [Eff.status Status.idle])
  else
    let r := transcribe_and_type env s1.audio_data s1
    (r.1, Eff.status Status.transcribing :: r.2)

/-- Function `start_recording_from_backtick`: the hold-timer callback; if the press is
still pending, delete the backtick the OS typed and start recording. -/
def start_recording_from_backtick (s : DState) : DState × List Eff :=
  match s.backtick_press_time with
  | none => (s, [])
  | some _ =>
      let r := start_recording s
      (r.1, Eff.backspace :: Eff.beginRec :: r.2)

/-- Function `undo_last_transcription`: if the stack is non-empty pop its most recent
entry and send one `BackSpace` per character of it. -/
def undo_last_transcription (s : DState) : DState × List Eff :=
  match s.transcription_stack.getLast? with
  | none => (s, [])
  | some text =>
      ({ s with transcription_stack := s.transcription_stack.dropLast },
       List.replicate text.length Eff.backspace)

/-- Function `on_press`: ignore synthetic events while typing; Pause starts recording
immediately; a backtick press (while not recording) records the press time and
schedules a fresh hold-detection timer — without cancelling a previously
scheduled one. -/
def on_press (key : Key) (t : Int) (s : DState) : DState × List Eff :=
  if s.typing_transcription = true then (s, [])
  else if key = Key.hotkey ∧ s.recording = false then
    let r := start_recording s
    (r.1, Eff.beginRec :: r.2)
  else if key = Key.backtick ∧ s.recording = false then
    ({ s with backtick_press_time := some t
              backtick_timer := some s.next_timer_id
              live_timers := s.live_timers ++ [s.next_timer_id]
              next_timer_id := s.next_timer_id + 1 }, [])
  else (s, [])

/-- The part of the backtick branch of `on_release` that follows the
`backtick_timer.cancel()` step: if a press is pending, either stop the active
recording, or — released before the hold threshold — run the tap / double-tap
logic.  Note the Python truthiness test `if last_backtick_tap_time`: a
recorded tap time equal to 0 is treated as absent. -/
def on_release_backtick_after_cancel (env : Env) (t : Int) (s : DState) :
    DState × List Eff :=
  match s.backtick_press_time with
  | none => (s, [])
  | some pt =>
      let s := { s with backtick_press_time := none }
      if s.recording = true then
        let r := stop_recording env s
        (r.1, Eff.endRec :: r.2)
      else if t - pt < BACKTICK_HOLD_THRESHOLD then
        match s.last_backtick_tap_time with
        | some lt =>
            if lt ≠ 0 ∧ t - lt < DOUBLE_TAP_THRESHOLD then
              let r := undo_last_transcription s
              ({ r.1 with last_backtick_tap_time := none },
               Eff.backspace :: Eff.backspace :: Eff.undo :: r.2)
            else ({ s with last_backtick_tap_time := some t }, [])
        | none => ({ s with last_backtick_tap_time := some t }, [])
      else (s, [])

/-- Function `on_release`: ignore synthetic events while typing; Pause release stops an
active recording; a backtick release first cancels the referenced timer
(`Timer.cancel()` on an already-fired timer is a no-op, hence `List.erase` of
an identifier that is no longer live), then continues with
`on_release_backtick_after_cancel`. -/
def on_release (env : Env) (key : Key) (t : Int) (s : DState) :
    DState × List Eff :=
  if s.typing_transcription = true then (s, [])
  else if key = Key.hotkey ∧ s.recording = true then
    let r := stop_recording env s
    (r.1, Eff.endRec :: r.2)
  else if key = Key.backtick then
    on_release_backtick_after_cancel env t
      (match s.backtick_timer with
        | some id =>
            { s with live_timers := s.live_timers.erase id
                     backtick_timer := none }
        | none => s)
  else (s, [])

/-- The scheduled firing of the timer with identifier `id`: it runs
`start_recording_from_backtick` exactly when it is still scheduled and was not
cancelled. -/
def fire_timer (id : Nat) (s : DState) : DState × List Eff :=
  if id ∈ s.live_timers then
    start_recording_from_backtick { s with live_timers := s.live_timers.erase id }
  else (s, [])

/-- Function `audio_callback`: a faulty chunk delivery sets `device_error` and enqueues
nothing; a clean chunk is enqueued exactly when recording. -/
def audio_callback (fault : Bool) (chunk : Nat) (s : DState) :
    DState × List Eff :=
  if fault = true then ({ s with device_error := true }, [])
  else if s.recording = true then
    ({ s with audio_queue := s.audio_queue ++ [chunk] }, [])
  else (s, [])

/-- One device-fault episode of the `run_dictation` loop, with `n` failed
reopen attempts before a successful one: on `device_error` the loop forces
`recording = False`, drains the stale `audio_queue`, shows the error icon and
sleeps; each failed reopen shows the error icon and sleeps again; a successful
reopen shows the idle icon.  `device_error` is cleared at the top of the loop
body. -/
def reconnect_trace : Nat → List Eff
  | 0 => [Eff.status Status.idle]
  | n + 1 => Eff.status Status.error :: reconnect_trace n

/-- See `reconnect_trace`: the state change and full status trace of one fault
episode of `run_dictation` (source lines 264–283 plus the loop re-entry). -/
def run_dictation_fault (n : Nat) (s : DState) : DState × List Eff :=
  ({ s with recording := false, audio_queue := [], device_error := false },
   Eff.status Status.error :: reconnect_trace n)

/-- The event alphabet of a run: key presses and releases with their
`time.time()` timestamp, timer firings, audio-chunk deliveries and device
fault signals. -/
inductive Event
  | press (k : Key) (t : Int)
  | release (k : Key) (t : Int)
  | timerFire (id : Nat)
  | audioChunk (c : Nat)
  | faultSignal
deriving DecidableEq

/-- Dispatch one event to the handler the source attaches to it. -/
def step (env : Env) (s : DState) : Event → DState × List Eff
  | Event.press k t => on_press k t s
  | Event.release k t => on_release env k t s
  | Event.timerFire id => fire_timer id s
  | Event.audioChunk c => audio_callback false c s
  | Event.faultSignal => audio_callback true 0 s

/-- Run a sequence of events, concatenating the emitted traces. -/
def runEvents (env : Env) : DState → List Event → DState × List Eff
  | s, [] => (s, [])
  | s, e :: rest =>
      let r := step env s e
      let r2 := runEvents env r.1 rest
      (r2.1, r.2 ++ r2.2)

/-- A sanity default environment: the transcription call raises and the
injector would succeed. -/
def env0 : Env := { transcription := TranscriptionResult.exn, injectorOk := true }

/-- Whether the backtick key is physically down after an event: used to
describe event sequences without key auto-repeat. -/
def pressedAfter (pressed : Bool) : Event → Bool
  | Event.press Key.backtick _ => true
  | Event.release Key.backtick _ => false
  | _ => pressed

/-- An event is admissible without auto-repeat: a backtick press only arrives
while the backtick is up. -/
def altHead (pressed : Bool) : Event → Bool
  | Event.press Key.backtick _ => !pressed
  | _ => true

/-- An event sequence alternates backtick presses and releases (no repeated
press without an intervening release), starting from the given key-down
state. -/
def altFrom : Bool → List Event → Bool
  | _, [] => true
  | pressed, e :: rest => altHead pressed e && altFrom (pressedAfter pressed e) rest

/-- The timer bookkeeping invariant of one TapHoldKey state: the injection
gate is clear, every still-pending timer is the one the `backtick_timer`
variable references, at most one timer is pending, and while the key is up no
timer is pending at all. -/
def TimerInv (pressed : Bool) (s : DState) : Prop :=
  s.typing_transcription = false ∧
  (∀ id ∈ s.live_timers, s.backtick_timer = some id) ∧
  s.live_timers.length ≤ 1 ∧
  (pressed = false → s.live_timers = [])

/-! ### Helper lemmas -/

/-- The transcription pipeline never touches the timer
bookkeeping, and always leaves the injection gate cleared. -/
theorem transcribe_and_type_fields (env : Env) (audio : List Nat) (s : DState) :
    (transcribe_and_type env audio s).1.live_timers = s.live_timers ∧
    (transcribe_and_type env audio s).1.backtick_timer = s.backtick_timer ∧
    (transcribe_and_type env audio s).1.typing_transcription = false := by
  obtain ⟨tr, iok⟩ := env
  cases tr <;> simp [transcribe_and_type] <;> split_ifs <;> simp

/-- Function `stop_recording` never touches the timer bookkeeping and preserves a
cleared injection gate. -/
theorem stop_recording_fields (env : Env) (s : DState) :
    (stop_recording env s).1.live_timers = s.live_timers ∧
    (stop_recording env s).1.backtick_timer = s.backtick_timer ∧
    (s.typing_transcription = false →
      (stop_recording env s).1.typing_transcription = false) := by
  simp only [stop_recording]
  split
  · simp
  · exact ⟨(transcribe_and_type_fields _ _ _).1, (transcribe_and_type_fields _ _ _).2.1,
      fun _ => (transcribe_and_type_fields _ _ _).2.2⟩

/-- Running a sequence of events splits at an append of event lists. -/
theorem runEvents_append (env : Env) (s : DState) (l1 l2 : List Event) :
    runEvents env s (l1 ++ l2) =
      ((runEvents env (runEvents env s l1).1 l2).1,
       (runEvents env s l1).2 ++ (runEvents env (runEvents env s l1).1 l2).2) := by
  induction l1 generalizing s with
  | nil => simp [runEvents]
  | cons e rest ih => simp [runEvents, ih, List.append_assoc]

/-- While recording, delivered audio chunks are enqueued in arrival order and
nothing else changes. -/
theorem runEvents_chunks (env : Env) (s : DState) (chunks : List Nat)
    (hr : s.recording = true) :
    runEvents env s (chunks.map Event.audioChunk) =
      ({ s with audio_queue := s.audio_queue ++ chunks }, []) := by
  induction chunks generalizing s with
  | nil => simp [runEvents]
  | cons c cs ih =>
      have h1 : step env s (Event.audioChunk c) =
          ({ s with audio_queue := s.audio_queue ++ [c] }, []) := by
        simp [step, audio_callback, hr]
      simp only [List.map_cons, runEvents, h1]
      rw [ih { s with audio_queue := s.audio_queue ++ [c] } (by simp [hr])]
      simp

/-- The status trace of the reconnection loop: one error icon per failed
reopen attempt, then the idle icon. -/
theorem reconnect_trace_eq (n : Nat) :
    reconnect_trace n =
      List.replicate n (Eff.status Status.error) ++ [Eff.status Status.idle] := by
  induction n with
  | zero => simp [reconnect_trace]
  | succ m ih => simp [reconnect_trace, ih, List.replicate_succ]

/-! ### C9: the injection-in-progress gate -/

/-- C9: while `typing_transcription` is set, every key press and every key
release — for every key role — is ignored: the state is unchanged and no
effect is emitted.  The gate test is the first statement of both handlers. -/
theorem injection_gate_ignores_all_keys (env : Env) (key : Key) (t : Int)
    (s : DState) (h : s.typing_transcription = true) :
    on_press key t s = (s, []) ∧ on_release env key t s = (s, []) := by
  constructor <;> simp [on_press, on_release, h]

/-- Witness for `injection_gate_ignores_all_keys` at a concrete gated state. -/
theorem injection_gate_ignores_all_keys_witness :
    ({ initState with typing_transcription := true } : DState).typing_transcription
        = true ∧
      on_press Key.backtick 1000 { initState with typing_transcription := true } =
        ({ initState with typing_transcription := true }, []) := by
  refine ⟨by decide, ?_⟩
  exact (injection_gate_ignores_all_keys env0 Key.backtick 1000
    { initState with typing_transcription := true } (by decide)).1

/-! ### C4: EndRecording with no active session -/

/-- C4: when no session is active and no frames were captured,
`stop_recording` leaves the state exactly as it was, makes no transcription
call and emits nothing but the idle status notification. -/
theorem stop_recording_inactive_noop (env : Env) (s : DState)
    (hr : s.recording = false) (hd : s.audio_data = [])
    (hq : s.audio_queue = []) :
    stop_recording env s = (s, [Eff.status Status.idle]) := by
  cases s
  simp_all [stop_recording]

/-- Witness for `stop_recording_inactive_noop` at the initial state. -/
theorem stop_recording_inactive_noop_witness :
    initState.recording = false ∧
      stop_recording env0 initState = (initState, [Eff.status Status.idle]) :=
  ⟨by decide, stop_recording_inactive_noop env0 initState (by decide) (by decide)
    (by decide)⟩

/-! ### C8: Undo semantics -/

/-- C8: `undo_last_transcription` on an empty stack is a no-op with no
effects; on a non-empty stack it pops exactly the most recent entry and emits
one backspace per character of that entry. -/
theorem undo_pops_by_character_count (s : DState) :
    (s.transcription_stack = [] → undo_last_transcription s = (s, [])) ∧
    (∀ l text, s.transcription_stack = l ++ [text] →
      undo_last_transcription s =
        ({ s with transcription_stack := l },
         List.replicate text.length Eff.backspace)) := by
  constructor
  · intro h
    simp [undo_last_transcription, h]
  · intro l text h
    simp [undo_last_transcription, h]

/-- Witness for `undo_pops_by_character_count`: undoing a transcription
`"hello "` deletes exactly 6 characters and empties the stack, so a second
undo is a no-op. -/
theorem undo_pops_by_character_count_witness :
    ("hello ".toList.length = 6) ∧
      undo_last_transcription
          { initState with transcription_stack := ["hello ".toList] } =
        (initState, List.replicate 6 Eff.backspace) ∧
      undo_last_transcription initState = (initState, []) := by
  refine ⟨by decide, ?_, ?_⟩
  · have h := (undo_pops_by_character_count
      { initState with transcription_stack := ["hello ".toList] }).2
      [] "hello ".toList (by decide)
    simpa using h
  · exact (undo_pops_by_character_count initState).1 (by decide)

/-! ### C3: when an entry is pushed onto the undo stack -/

/-- C3 counterexample: the source pushes onto `transcription_stack` *before*
invoking the injector, so when the `xdotool type` call fails the stack has
still changed — refuting "if the TextInjector call fails, the UndoStack is
unchanged by that run". -/
theorem push_survives_injector_failure :
    (transcribe_and_type
        { transcription := TranscriptionResult.ok ['h', 'i'], injectorOk := false }
        [] initState).1.transcription_stack ≠ initState.transcription_stack := by
  decide

/-- C3 amended: exactly one entry (the stripped text with one trailing
separator) is pushed whenever the transcription call succeeds with non-empty
stripped text — regardless of whether the injection then succeeds — and no
entry is pushed when the transcription call raises or returns empty text. -/
theorem push_on_transcription_success (env : Env) (audio : List Nat)
    (s : DState) :
    (env.transcription = TranscriptionResult.exn →
      (transcribe_and_type env audio s).1.transcription_stack =
        s.transcription_stack) ∧
    (∀ raw, env.transcription = TranscriptionResult.ok raw → pystrip raw = [] →
      (transcribe_and_type env audio s).1.transcription_stack =
        s.transcription_stack) ∧
    (∀ raw, env.transcription = TranscriptionResult.ok raw → pystrip raw ≠ [] →
      (transcribe_and_type env audio s).1.transcription_stack =
        s.transcription_stack ++ [pystrip raw ++ [' ']]) := by
  refine ⟨fun h => ?_, fun raw h he => ?_, fun raw h hne => ?_⟩
  · simp [transcribe_and_type, h]
  · simp [transcribe_and_type, h, he]
  · cases hio : env.injectorOk <;> simp [transcribe_and_type, h, hne, hio]

/-- Witness for `push_on_transcription_success`: a successful transcription of
`" hi "` pushes exactly `"hi "`. -/
theorem push_on_transcription_success_witness :
    pystrip " hi ".toList ≠ [] ∧
      (transcribe_and_type
          { transcription := TranscriptionResult.ok " hi ".toList,
            injectorOk := true } [] initState).1.transcription_stack =
        initState.transcription_stack ++ [pystrip " hi ".toList ++ [' ']] :=
  ⟨by decide,
    (push_on_transcription_success
      { transcription := TranscriptionResult.ok " hi ".toList, injectorOk := true }
      [] initState).2.2 " hi ".toList rfl (by decide)⟩

/-! ### C7: failure suppression in the transcription pipeline -/

/-- C7 counterexample: on an injector exception an undo entry *does* remain
pushed for the run, refuting "no undo entry remains pushed for that run" for
the injector-exception outcome. -/
theorem injector_failure_leaves_undo_entry :
    (transcribe_and_type
        { transcription := TranscriptionResult.ok ['y', 'o'], injectorOk := false }
        [] initState).1.transcription_stack ≠ [] := by
  decide

/-- C7 amended: every failure of the pipeline is suppressed — the injection
gate ends cleared, the temporary WAV file is released and StatusSink is
notified Idle last on every path; no text is injected on any failure; on
empty text or a transcription-client exception no undo entry is pushed; on an
injector exception, however, the entry pushed just before the injection
attempt remains on the stack. -/
theorem pipeline_failure_suppression (env : Env) (audio : List Nat)
    (s : DState) :
    (transcribe_and_type env audio s).1.typing_transcription = false ∧
    Eff.releaseTemp ∈ (transcribe_and_type env audio s).2 ∧
    (transcribe_and_type env audio s).2.getLast? =
      some (Eff.status Status.idle) ∧
    (env.transcription = TranscriptionResult.exn →
      (∀ txt, Eff.typeText txt ∉ (transcribe_and_type env audio s).2) ∧
      (transcribe_and_type env audio s).1.transcription_stack =
        s.transcription_stack) ∧
    (∀ raw, env.transcription = TranscriptionResult.ok raw → pystrip raw = [] →
      (∀ txt, Eff.typeText txt ∉ (transcribe_and_type env audio s).2) ∧
      (transcribe_and_type env audio s).1.transcription_stack =
        s.transcription_stack) ∧
    (∀ raw, env.transcription = TranscriptionResult.ok raw → pystrip raw ≠ [] →
      env.injectorOk = false →
      (∀ txt, Eff.typeText txt ∉ (transcribe_and_type env audio s).2) ∧
      (transcribe_and_type env audio s).1.transcription_stack =
        s.transcription_stack ++ [pystrip raw ++ [' ']]) := by
  obtain ⟨tres, iok⟩ := env
  cases tres with
  | exn => simp [transcribe_and_type]
  | ok raw =>
      by_cases he : pystrip raw = []
      · simp [transcribe_and_type, he]
      · cases iok <;> simp [transcribe_and_type, he]

/-- Witness for `pipeline_failure_suppression`: a transcription-client
exception leaves the stack unchanged, injects nothing, and still releases the
temporary file and notifies Idle. -/
theorem pipeline_failure_suppression_witness :
    (env0.transcription = TranscriptionResult.exn) ∧
      ((∀ txt, Eff.typeText txt ∉ (transcribe_and_type env0 [] initState).2) ∧
        (transcribe_and_type env0 [] initState).1.transcription_stack =
          initState.transcription_stack) :=
  ⟨rfl, (pipeline_failure_suppression env0 [] initState).2.2.2.1 rfl⟩

/-! ### C10: corrective deletions on a double tap with an empty undo stack -/

/-- C10: on a double-tap release the two corrective BackSpaces are emitted
unconditionally and before the undo is attempted (the `Eff.undo` marker); with
an empty undo stack nothing further is deleted. -/
theorem double_tap_correctives_precede_empty_undo (env : Env) (t pt lt : Int)
    (s : DState)
    (hg : s.typing_transcription = false) (hr : s.recording = false)
    (hp : s.backtick_press_time = some pt)
    (hlt : s.last_backtick_tap_time = some lt) (h0 : lt ≠ 0)
    (hd : t - pt < BACKTICK_HOLD_THRESHOLD)
    (hdt : t - lt < DOUBLE_TAP_THRESHOLD)
    (hst : s.transcription_stack = []) :
    (on_release env Key.backtick t s).2 =
      [Eff.backspace, Eff.backspace, Eff.undo] ∧
    (on_release env Key.backtick t s).1.transcription_stack = [] := by
  rcases hbt : s.backtick_timer with _ | id <;>
    simp [on_release, on_release_backtick_after_cancel, hbt, hg, hr, hp, hlt,
      h0, hd, hdt, undo_last_transcription, hst]

/-- Witness for `double_tap_correctives_precede_empty_undo` at a concrete
double-tap state with an empty stack. -/
theorem double_tap_correctives_precede_empty_undo_witness :
    ((1300 : Int) - 1200 < BACKTICK_HOLD_THRESHOLD) ∧
      (on_release env0 Key.backtick 1300
          { initState with backtick_press_time := some 1200,
                           last_backtick_tap_time := some 1100 }).2 =
        [Eff.backspace, Eff.backspace, Eff.undo] :=
  ⟨by decide,
    (double_tap_correctives_precede_empty_undo env0 1300 1200 1100
      { initState with backtick_press_time := some 1200,
                       last_backtick_tap_time := some 1100 }
      rfl rfl rfl rfl (by decide) (by decide) (by decide) rfl).1⟩

/-! ### C2: double-tap undo and single-tap recording of the tap time -/

/-- C2: a backtick release before the hold threshold with a recorded previous
tap inside the double-tap window emits the Undo intent preceded by exactly two
corrective deletions (the per-character deletions of the undo follow the
marker) and resets `last_backtick_tap_time` to empty; a release with no prior
tap in the window — either no tap recorded at all, or a recorded tap lying
outside the 0.3 s window — emits nothing and only records
`last_backtick_tap_time = now`. -/
theorem double_tap_release_and_single_tap (env : Env) (t pt : Int) (s : DState)
    (hg : s.typing_transcription = false) (hr : s.recording = false)
    (hp : s.backtick_press_time = some pt)
    (hd : t - pt < BACKTICK_HOLD_THRESHOLD) :
    (∀ lt, s.last_backtick_tap_time = some lt → lt ≠ 0 →
      t - lt < DOUBLE_TAP_THRESHOLD →
      (on_release env Key.backtick t s).2 =
        Eff.backspace :: Eff.backspace :: Eff.undo ::
          (undo_last_transcription s).2 ∧
      (on_release env Key.backtick t s).1.last_backtick_tap_time = none ∧
      (on_release env Key.backtick t s).1.transcription_stack =
        s.transcription_stack.dropLast) ∧
    (s.last_backtick_tap_time = none →
      (on_release env Key.backtick t s).2 = [] ∧
      (on_release env Key.backtick t s).1.last_backtick_tap_time = some t ∧
      (on_release env Key.backtick t s).1.transcription_stack =
        s.transcription_stack ∧
      (on_release env Key.backtick t s).1.recording = s.recording ∧
      (on_release env Key.backtick t s).1.audio_queue = s.audio_queue ∧
      (on_release env Key.backtick t s).1.audio_data = s.audio_data) ∧
    (∀ lt, s.last_backtick_tap_time = some lt →
      ¬ t - lt < DOUBLE_TAP_THRESHOLD →
      (on_release env Key.backtick t s).2 = [] ∧
      (on_release env Key.backtick t s).1.last_backtick_tap_time = some t ∧
      (on_release env Key.backtick t s).1.transcription_stack =
        s.transcription_stack ∧
      (on_release env Key.backtick t s).1.recording = s.recording ∧
      (on_release env Key.backtick t s).1.audio_queue = s.audio_queue ∧
      (on_release env Key.backtick t s).1.audio_data = s.audio_data) := by
  refine ⟨?_, ?_, ?_⟩
  · intro lt hlt h0 hdt
    rcases List.eq_nil_or_concat s.transcription_stack with hst | ⟨l, a, hst⟩ <;>
      rcases hbt : s.backtick_timer with _ | id <;>
        simp [on_release, on_release_backtick_after_cancel, hbt, hg, hr, hp,
          hlt, h0, hd, hdt, undo_last_transcription, hst]
  · intro hlt
    rcases hbt : s.backtick_timer with _ | id <;>
      simp [on_release, on_release_backtick_after_cancel, hbt, hg, hr, hp,
        hlt, hd]
  · intro lt hlt hdt
    rcases hbt : s.backtick_timer with _ | id <;>
      simp [on_release, on_release_backtick_after_cancel, hbt, hg, hr, hp,
        hlt, hd, hdt]

/-- Witness for `double_tap_release_and_single_tap`: a second tap 200 ms after
a recorded first tap undoes a previously transcribed `"hi "`; a tap 800 ms
after a recorded first tap is a plain single tap that only re-records the tap
time. -/
theorem double_tap_release_and_single_tap_witness :
    ((1300 : Int) - 1100 < DOUBLE_TAP_THRESHOLD) ∧
      ((on_release env0 Key.backtick 1300
          { initState with backtick_press_time := some 1200,
                           last_backtick_tap_time := some 1100,
                           transcription_stack := [['h', 'i', ' ']] }).2 =
        Eff.backspace :: Eff.backspace :: Eff.undo ::
          (undo_last_transcription
            { initState with backtick_press_time := some 1200,
                             last_backtick_tap_time := some 1100,
                             transcription_stack := [['h', 'i', ' ']] }).2 ∧
      (on_release env0 Key.backtick 1300
          { initState with backtick_press_time := some 1200,
                           last_backtick_tap_time := some 1100,
                           transcription_stack := [['h', 'i', ' ']] }).1.last_backtick_tap_time
        = none ∧
      (on_release env0 Key.backtick 1300
          { initState with backtick_press_time := some 1200,
                           last_backtick_tap_time := some 1100,
                           transcription_stack := [['h', 'i', ' ']] }).1.transcription_stack
        = ([['h', 'i', ' ']] : List (List Char)).dropLast) ∧
      (¬ (1300 : Int) - 500 < DOUBLE_TAP_THRESHOLD) ∧
      ((on_release env0 Key.backtick 1300
          { initState with backtick_press_time := some 1200,
                           last_backtick_tap_time := some 500 }).2 = [] ∧
        (on_release env0 Key.backtick 1300
          { initState with backtick_press_time := some 1200,
                           last_backtick_tap_time := some 500 }).1.last_backtick_tap_time
          = some 1300) :=
  ⟨by decide,
    (double_tap_release_and_single_tap env0 1300 1200
      { initState with backtick_press_time := some 1200,
                       last_backtick_tap_time := some 1100,
                       transcription_stack := [['h', 'i', ' ']] }
      rfl rfl rfl (by decide)).1 1100 rfl (by decide) (by decide),
    by decide,
    ((double_tap_release_and_single_tap env0 1300 1200
      { initState with backtick_press_time := some 1200,
                       last_backtick_tap_time := some 500 }
      rfl rfl rfl (by decide)).2.2 500 rfl (by decide)).1,
    ((double_tap_release_and_single_tap env0 1300 1200
      { initState with backtick_press_time := some 1200,
                       last_backtick_tap_time := some 500 }
      rfl rfl rfl (by decide)).2.2 500 rfl (by decide)).2.1⟩

/-! ### C6: device-fault recovery -/

/-- C6: a fault signal during an active recording enqueues nothing; the
recovery loop then forces `recording = false`, discards every buffered frame
and clears the fault flag; its status trace is one Error per backoff interval
(the initial fault plus each of the `n` failed reopen attempts) followed by
Idle after the successful reconnection; no transcription call occurs, and a
subsequent `stop_recording` for the faulted session (whose `audio_data` was
cleared when it started) finds nothing and goes straight to Idle. -/
theorem device_fault_discards_session (env : Env) (n : Nat) (s : DState)
    (hr : s.recording = true) (hd : s.audio_data = []) :
    (audio_callback true 0 s).2 = [] ∧
    (run_dictation_fault n (audio_callback true 0 s).1).1.recording = false ∧
    (run_dictation_fault n (audio_callback true 0 s).1).1.audio_queue = [] ∧
    (run_dictation_fault n (audio_callback true 0 s).1).1.device_error = false ∧
    (run_dictation_fault n (audio_callback true 0 s).1).2 =
      List.replicate (n + 1) (Eff.status Status.error) ++
        [Eff.status Status.idle] ∧
    Eff.transcribe ∉ (run_dictation_fault n (audio_callback true 0 s).1).2 ∧
    (stop_recording env (run_dictation_fault n (audio_callback true 0 s).1).1).2 =
      [Eff.status Status.idle] := by
  refine ⟨by simp [audio_callback], by simp [run_dictation_fault],
    by simp [run_dictation_fault], by simp [run_dictation_fault], ?_, ?_, ?_⟩
  · simp [run_dictation_fault, reconnect_trace_eq, List.replicate_succ]
  · simp [run_dictation_fault, reconnect_trace_eq]
  · simp [run_dictation_fault, audio_callback, stop_recording, hd]

/-- Witness for `device_fault_discards_session`: a fault while recording with
two failed reopen attempts. -/
theorem device_fault_discards_session_witness :
    (({ initState with recording := true } : DState).recording = true) ∧
      (run_dictation_fault 2
          (audio_callback true 0 { initState with recording := true }).1).2 =
        List.replicate 3 (Eff.status Status.error) ++ [Eff.status Status.idle] :=
  ⟨rfl,
    (device_fault_discards_session env0 2 { initState with recording := true }
      rfl rfl).2.2.2.2.1⟩

/-! ### C1: a full hold cycle on the backtick -/

/-- The transcription pipeline emits no intent markers and no backspaces. -/
theorem transcribe_and_type_trace_free (env : Env) (audio : List Nat)
    (s : DState) :
    Eff.beginRec ∉ (transcribe_and_type env audio s).2 ∧
    Eff.endRec ∉ (transcribe_and_type env audio s).2 ∧
    Eff.backspace ∉ (transcribe_and_type env audio s).2 := by
  obtain ⟨tres, iok⟩ := env
  cases tres with
  | exn => simp [transcribe_and_type]
  | ok raw =>
      by_cases he : pystrip raw = []
      · simp [transcribe_and_type, he]
      · cases iok <;> simp [transcribe_and_type, he]

/-- C1: for a backtick press at `t0` whose hold timer fires and whose release
comes at `t1 ≥ t0 + 0.3 s` — with any audio chunks delivered during the hold
and any collaborator behaviour — the run emits exactly one corrective
deletion, then exactly one BeginRecording, then exactly one EndRecording, and
no further begin/end intent or backspace. -/
theorem hold_cycle_emits_one_begin_one_end (env : Env) (t0 t1 : Int)
    (chunks : List Nat) (h : t0 + BACKTICK_HOLD_THRESHOLD ≤ t1) :
    ∃ rest,
      (runEvents env initState
        (Event.press Key.backtick t0 :: Event.timerFire 0 ::
          (chunks.map Event.audioChunk ++ [Event.release Key.backtick t1]))).2 =
        Eff.backspace :: Eff.beginRec :: Eff.status Status.recording ::
          Eff.endRec :: rest ∧
      Eff.beginRec ∉ rest ∧ Eff.endRec ∉ rest ∧ Eff.backspace ∉ rest := by
  have hsplit : (Event.press Key.backtick t0 :: Event.timerFire 0 ::
      (chunks.map Event.audioChunk ++ [Event.release Key.backtick t1])) =
      [Event.press Key.backtick t0, Event.timerFire 0] ++
        (chunks.map Event.audioChunk ++ [Event.release Key.backtick t1]) := rfl
  have h2 : runEvents env initState
      [Event.press Key.backtick t0, Event.timerFire 0] =
      ((⟨true, false, [], [], some t0, some 0, [], 1, none, [], false⟩ : DState),
       [Eff.backspace, Eff.beginRec, Eff.status Status.recording]) := rfl
  have h3 := runEvents_chunks env
    (⟨true, false, [], [], some t0, some 0, [], 1, none, [], false⟩ : DState)
    chunks rfl
  rw [hsplit, runEvents_append, h2, runEvents_append, h3]
  simp only [List.nil_append]
  by_cases hc : chunks = []
  · subst hc
    exact ⟨[Eff.status Status.idle], by simp [runEvents, step, on_release,
      on_release_backtick_after_cancel, stop_recording], by simp, by simp,
      by simp⟩
  · refine ⟨Eff.status Status.transcribing ::
      (transcribe_and_type env chunks
        (⟨false, false, [], chunks, none, none, [], 1, none, [], false⟩ :
          DState)).2, ?_, ?_, ?_, ?_⟩
    · simp [runEvents, step, on_release, on_release_backtick_after_cancel,
        stop_recording, hc]
    · simpa using (transcribe_and_type_trace_free env chunks _).1
    · simpa using (transcribe_and_type_trace_free env chunks _).2.1
    · simpa using (transcribe_and_type_trace_free env chunks _).2.2

/-- Witness for `hold_cycle_emits_one_begin_one_end`: a press at 1000 ms
released at 2000 ms with no audio delivered. -/
theorem hold_cycle_emits_one_begin_one_end_witness :
    ((1000 : Int) + BACKTICK_HOLD_THRESHOLD ≤ 2000) ∧
      ∃ rest,
        (runEvents env0 initState
          (Event.press Key.backtick 1000 :: Event.timerFire 0 ::
            (([] : List Nat).map Event.audioChunk ++
              [Event.release Key.backtick 2000]))).2 =
          Eff.backspace :: Eff.beginRec :: Eff.status Status.recording ::
            Eff.endRec :: rest ∧
        Eff.beginRec ∉ rest ∧ Eff.endRec ∉ rest ∧ Eff.backspace ∉ rest :=
  ⟨by decide,
    hold_cycle_emits_one_begin_one_end env0 1000 2000 [] (by decide)⟩

/-! ### C5: pending-timer bookkeeping -/

/-- The hold-timer callback changes only the recording flag and the audio
buffer. -/
theorem start_recording_from_backtick_fields (s : DState) :
    (start_recording_from_backtick s).1.live_timers = s.live_timers ∧
    (start_recording_from_backtick s).1.backtick_timer = s.backtick_timer ∧
    (start_recording_from_backtick s).1.typing_transcription =
      s.typing_transcription := by
  rcases h : s.backtick_press_time <;>
    simp [start_recording_from_backtick, start_recording, h]

/-- Undo changes only the transcription stack. -/
theorem undo_last_transcription_fields (s : DState) :
    (undo_last_transcription s).1.live_timers = s.live_timers ∧
    (undo_last_transcription s).1.backtick_timer = s.backtick_timer ∧
    (undo_last_transcription s).1.typing_transcription =
      s.typing_transcription := by
  rcases h : s.transcription_stack.getLast? <;>
    simp [undo_last_transcription, h]

/-- The post-cancel part of a backtick release never touches the timer
bookkeeping and preserves a cleared injection gate. -/
theorem on_release_backtick_after_cancel_fields (env : Env) (t : Int)
    (s : DState) (hty : s.typing_transcription = false) :
    (on_release_backtick_after_cancel env t s).1.typing_transcription = false ∧
    (on_release_backtick_after_cancel env t s).1.live_timers = s.live_timers ∧
    (on_release_backtick_after_cancel env t s).1.backtick_timer =
      s.backtick_timer := by
  rcases hbp : s.backtick_press_time with _ | pt
  · simp [on_release_backtick_after_cancel, hbp, hty]
  · cases hrec : s.recording
    · by_cases hheld : t - pt < BACKTICK_HOLD_THRESHOLD
      · rcases hltv : s.last_backtick_tap_time with _ | lt
        · simp [on_release_backtick_after_cancel, hbp, hrec, hheld, hltv, hty]
        · by_cases hdbl : lt ≠ 0 ∧ t - lt < DOUBLE_TAP_THRESHOLD
          · have huf := undo_last_transcription_fields
              { s with backtick_press_time := none }
            simp only [on_release_backtick_after_cancel, hbp, hrec, hltv] at *
            simp_all [hheld, hdbl]
          · simp [on_release_backtick_after_cancel, hbp, hrec, hheld, hltv,
              hdbl, hty]
      · simp [on_release_backtick_after_cancel, hbp, hrec, hheld, hty]
    · have hsf := stop_recording_fields env { s with backtick_press_time := none }
      simp only [on_release_backtick_after_cancel, hbp, hrec] at *
      simp_all

/-- A backtick release always leaves the cancel bookkeeping in its ground
state: no pending timer, no referenced timer, gate clear. -/
theorem on_release_backtick_ground (env : Env) (t : Int) (s : DState)
    (hty : s.typing_transcription = false)
    (href : ∀ id ∈ s.live_timers, s.backtick_timer = some id)
    (hlen : s.live_timers.length ≤ 1) :
    (on_release env Key.backtick t s).1.typing_transcription = false ∧
    (on_release env Key.backtick t s).1.live_timers = [] ∧
    (on_release env Key.backtick t s).1.backtick_timer = none := by
  rcases hbt : s.backtick_timer with _ | id
  · have hl : s.live_timers = [] := by
      rcases hlv : s.live_timers with _ | ⟨a, l⟩
      · rfl
      · have := href a (by simp [hlv])
        simp [hbt] at this
    have hf := on_release_backtick_after_cancel_fields env t s hty
    simp only [on_release, hty, hbt] at *
    simp_all
  · have herase : s.live_timers.erase id = [] := by
      rcases hlv : s.live_timers with _ | ⟨a, l⟩
      · rfl
      · have ha : a = id := by
          have := href a (by simp [hlv])
          rw [hbt] at this
          exact Option.some.inj this.symm
        rcases l with _ | ⟨b, l2⟩
        · simp [ha]
        · simp [hlv] at hlen
    have hf := on_release_backtick_after_cancel_fields env t
      { s with live_timers := s.live_timers.erase id, backtick_timer := none }
      (by simpa using hty)
    simp only [on_release, hty, hbt] at *
    simp_all

/-- One admissible event preserves the timer bookkeeping invariant. -/
theorem step_TimerInv (env : Env) (pressed : Bool) (s : DState) (e : Event)
    (hInv : TimerInv pressed s) (hh : altHead pressed e = true) :
    TimerInv (pressedAfter pressed e) (step env s e).1 := by
  obtain ⟨hty, href, hlen, hemp⟩ := hInv
  cases e with
  | press k t =>
      cases k with
      | hotkey =>
          cases hrec : s.recording <;>
            simp_all [step, on_press, start_recording, pressedAfter, TimerInv] <;>
            all_goals exact href
      | backtick =>
          have hp : pressed = false := by
            simpa [altHead] using hh
          have hl : s.live_timers = [] := hemp hp
          cases hrec : s.recording <;>
            simp_all [step, on_press, pressedAfter, TimerInv]
      | other =>
          simp_all [step, on_press, pressedAfter, TimerInv]
          all_goals exact href
  | release k t =>
      cases k with
      | hotkey =>
          have hfld := stop_recording_fields env s
          cases hrec : s.recording <;>
            simp_all [step, on_release, pressedAfter, TimerInv] <;>
            all_goals exact href
      | backtick =>
          have hg := on_release_backtick_ground env t s hty href hlen
          refine ⟨hg.1, ?_, ?_, fun _ => hg.2.1⟩ <;>
            simp [step, hg.2.1, pressedAfter]
      | other =>
          simp_all [step, on_release, pressedAfter, TimerInv]
          all_goals exact href
  | timerFire id =>
      by_cases hmem : id ∈ s.live_timers
      · have hone : s.live_timers = [id] := by
          rcases hlv : s.live_timers with _ | ⟨a, l⟩
          · simp [hlv] at hmem
          · rcases l with _ | ⟨b, l2⟩
            · rw [hlv] at hmem
              simp at hmem
              simp [hmem]
            · simp [hlv] at hlen
        have hfld := start_recording_from_backtick_fields
          { s with live_timers := s.live_timers.erase id }
        simp only [step, fire_timer, hmem, if_pos]
        refine ⟨?_, ?_, ?_, ?_⟩ <;> simp_all [hone, pressedAfter, TimerInv]
      · simp_all [step, fire_timer, pressedAfter, TimerInv]
        all_goals exact href
  | audioChunk c =>
      cases hrec : s.recording <;>
        simp_all [step, audio_callback, pressedAfter, TimerInv] <;>
        all_goals exact href
  | faultSignal =>
      simp_all [step, audio_callback, pressedAfter, TimerInv]
      all_goals exact href

/-- Admissible runs preserve the timer bookkeeping invariant. -/
theorem runEvents_TimerInv (env : Env) :
    ∀ (evts : List Event) (pressed : Bool) (s : DState),
      altFrom pressed evts = true → TimerInv pressed s →
      TimerInv (evts.foldl pressedAfter pressed) (runEvents env s evts).1 := by
  intro evts
  induction evts with
  | nil => intro pressed s _ hInv; simpa [runEvents] using hInv
  | cons e rest ih =>
      intro pressed s halt hInv
      rw [altFrom, Bool.and_eq_true] at halt
      have h1 := step_TimerInv env pressed s e hInv halt.1
      have h2 := ih (pressedAfter pressed e) (step env s e).1 halt.2 h1
      simpa [runEvents, List.foldl_cons] using h2

/-- Prefixes of admissible sequences are admissible. -/
theorem altFrom_take (n : Nat) :
    ∀ (evts : List Event) (pressed : Bool), altFrom pressed evts = true →
      altFrom pressed (evts.take n) = true := by
  induction n with
  | zero => intro evts pressed _; simp [altFrom]
  | succ m ih =>
      intro evts pressed halt
      cases evts with
      | nil => simpa [altFrom] using halt
      | cons e rest =>
          rw [altFrom, Bool.and_eq_true] at halt
          rw [List.take_succ_cons, altFrom, Bool.and_eq_true]
          exact ⟨halt.1, ih rest _ halt.2⟩

/-- C5 counterexample: two backtick presses without an intervening release
(key auto-repeat) leave two pending hold-detection timers — the second press
overwrites the `backtick_timer` variable without cancelling the first timer,
refuting "at most one pending timer at any time" for arbitrary key-event
sequences. -/
theorem two_presses_two_pending_timers :
    ¬ ((runEvents env0 initState
        [Event.press Key.backtick 0,
         Event.press Key.backtick 100]).1.live_timers).length ≤ 1 := by
  decide

/-- C5 amended: along any event sequence in which backtick presses and
releases alternate (no auto-repeat), each key state has at most one pending
hold-detection timer at every point of the run; a new press then always
starts from an empty pending set, replacing the state of the previous cycle. -/
theorem alternating_at_most_one_pending_timer (env : Env) (evts : List Event)
    (n : Nat) (h : altFrom false evts = true) :
    ((runEvents env initState (evts.take n)).1.live_timers).length ≤ 1 :=
  (runEvents_TimerInv env (evts.take n) false initState
    (altFrom_take n evts false h)
    ⟨rfl, by simp [initState], by simp [initState], fun _ => rfl⟩).2.2.1

/-- Witness for `alternating_at_most_one_pending_timer`: a tap followed by a
hold, taken at every prefix length. -/
theorem alternating_at_most_one_pending_timer_witness :
    altFrom false
        [Event.press Key.backtick 1000, Event.release Key.backtick 1100,
         Event.press Key.backtick 2000, Event.timerFire 1,
         Event.release Key.backtick 2500] = true ∧
      ((runEvents env0 initState
          ([Event.press Key.backtick 1000, Event.release Key.backtick 1100,
            Event.press Key.backtick 2000, Event.timerFire 1,
            Event.release Key.backtick 2500].take 4)).1.live_timers).length ≤ 1 :=
  ⟨by decide,
    alternating_at_most_one_pending_timer env0
      [Event.press Key.backtick 1000, Event.release Key.backtick 1100,
       Event.press Key.backtick 2000, Event.timerFire 1,
       Event.release Key.backtick 2500] 4 (by decide)⟩

end Dictate
